import Mathlib

/-!
Verification of the fake-news analysis service (news_agent).

This file gives a shallow embedding of the Python sources in `src/`:
`models.py`, `analysis_cache.py`, `vector_db.py`, `agent.py`, `workflow.py`
and `api.py`, and proves or refutes the frozen behavioural claims about them.

Modelling conventions:
- Python floats are modelled as rationals (`ℚ`); machine rounding of decimal
  literals is abstracted away, which is faithful to the branch structure the
  claims are about.
- A raised Python exception is an `Except PyErr` error value; a `try/except`
  block is a `match` on that value.  Code placed before a `try` block is a
  monadic bind placed before the `match`, so its errors propagate.
- External services (PostgreSQL pool, embeddings backend, the LLM) are
  oracles: functions supplied as fields of the component structures, exactly
  the dependency-injection shape of the Python constructors.
- JSON values are the inductive `JVal`; JSON objects and Python dicts are
  association lists whose lookup takes the first matching key.
- `hashlib.sha256(...).hexdigest()` is an abstract function parameter `sha`:
  no claim depends on the internals of SHA-256.
- Python `str.strip()/str.lower()` are `String.trim/String.toLower`; exact
  textual details of log messages and of `str(e)` are abstracted where no
  claim inspects them.
-/

/-- A raised Python exception.  `attributeError a` is the `AttributeError`
raised when attribute `a` is missing; `validationError` is a pydantic
validation failure; `exception` is any other exception with its message. -/
inductive PyErr where
  | attributeError (attr : String)
  | validationError (what : String)
  | exception (message : String)

/-- The `str(e)` text used by log and error messages (text abstracted). -/
def PyErr.pymsg : PyErr → String
  | .attributeError a => "AttributeError: " ++ a
  | .validationError w => "ValidationError: " ++ w
  | .exception m => m

/-- A JSON value / generic Python object, as carried in request dicts and in
the free-form `metadata` and `factors` mappings. -/
inductive JVal where
  | null
  | str (s : String)
  | num (q : ℚ)
  | boolean (b : Bool)
  | arr (elems : List JVal)
  | obj (fields : List (String × JVal))

/-- First-match lookup in a JSON object / Python dict (`d.get(k)`). -/
def lookupKey : List (String × JVal) → String → Option JVal
  | [], _ => none
  | (k, v) :: rest, key => if k = key then some v else lookupKey rest key

/-- Removal of a key from a JSON object (used to state absence of a key). -/
def eraseKey (key : String) (j : List (String × JVal)) : List (String × JVal) :=
  j.filter (fun p => decide (p.1 ≠ key))

/-- `models.py` lines 6-11: `PostInput`.  Its only fields are `text`,
`metadata`, `image_description` and `social_network`; it has NO `trend`
field. -/
structure PostInput where
  text : String
  metadata : List (String × JVal)
  image_description : Option String
  social_network : Option String

/-- Pydantic raises `AttributeError` when an undeclared attribute is read on
a model instance.  `analysis_cache.py` reads `post_input.trend`, which
`PostInput` (models.py lines 6-11) does not declare, so the access raises. -/
def PostInput.attr_trend (_ : PostInput) : Except PyErr String :=
  .error (.attributeError ("trend"))

/-- `models.py` lines 14-20: `PostAnalysisInput` (PostInput fields plus the
classifier score, validated by pydantic to lie in [0,1]). -/
structure PostAnalysisInput where
  text : String
  metadata : List (String × JVal)
  image_description : Option String
  social_network : Option String
  bert_score : ℚ

/-- `models.py` lines 31-39: `PostAnalysisOutput`, the structured verdict. -/
structure PostAnalysisOutput where
  risk_level : String
  risk_score : ℚ
  bert_score : ℚ
  confidence : ℚ
  reasoning : String
  relevant_sources : List String
  factors : List (String × JVal)

/-- Pydantic validation performed when `workflow.py` line 68 constructs a
`PostAnalysisInput`: `bert_score` must lie in [0,1] (models.py line 20). -/
def mkPostAnalysisInput (p : PostInput) (bert_score : ℚ) :
    Except PyErr PostAnalysisInput :=
  if 0 ≤ bert_score ∧ bert_score ≤ 1 then
    .ok ⟨p.text, p.metadata, p.image_description, p.social_network, bert_score⟩
  else
    .error (.validationError ("bert_score"))

/-- A row of the `post_analyses` table as read back by
`AnalysisCache.get_analysis` (analysis_cache.py lines 96-119). -/
structure CacheRow where
  risk_level : String
  risk_score : ℚ
  bert_score : ℚ
  confidence : ℚ
  reasoning : String
  relevant_sources : Option (List String)
  factors : Option (List (String × JVal))

/-- The record written by the upsert in `AnalysisCache.save_analysis`
(analysis_cache.py lines 154-189). -/
structure SaveRow where
  post_hash : String
  post_text : String
  post_metadata : List (String × JVal)
  image_description : Option String
  social_network : Option String
  trend : String
  analysis : PostAnalysisOutput

/-- The oracle for a live PostgreSQL connection pool: each query the cache
issues, with the outcomes the database can produce (including arbitrary
storage errors). -/
structure PoolConn where
  lookupByHash : String → Except PyErr (Option CacheRow)
  insertOrUpdate : SaveRow → Except PyErr Unit
  countAll : Except PyErr ℕ
  selectPage : ℤ → ℤ → Except PyErr (List (List (String × JVal)))
  lookupById : ℤ → Except PyErr (Option (List (String × JVal)))

/-- `analysis_cache.py` lines 16-42: `AnalysisCache`; `pool` is `None` when
pool creation failed in `_initialize_pool`. -/
structure AnalysisCache where
  pool : Option PoolConn

/-- Serialization of the `hash_data` dict by `json.dumps(..., sort_keys=True)`
(analysis_cache.py line 74); keys in sorted order, string escaping
abstracted. -/
def serializeHashData (text image_description social_network trend : String) :
    String :=
  "\x7b\"image_description\": \"" ++ image_description ++
    "\", \"social_network\": \"" ++ social_network ++
    "\", \"text\": \"" ++ text ++
    "\", \"trend\": \"" ++ trend ++ "\"\x7d"

/-- `AnalysisCache._generate_hash` (analysis_cache.py lines 55-75).  The
`hash_data` dict normalizes text and image description (strip + lower),
defaults the optional fields to the empty string, and reads
`post_input.trend` — an attribute `PostInput` does not have, so this raises
`AttributeError` before any hash is produced.  `sha` abstracts
`hashlib.sha256(...).hexdigest()`. -/
def AnalysisCache.generate_hash (sha : String → String) (post_input : PostInput) :
    Except PyErr String := do
  let text := post_input.text.trim.toLower
  let image_description :=
    match post_input.image_description with
    | some s => if s = "" then "" else s.trim.toLower
    | none => ""
  let social_network := post_input.social_network.getD ""
  let trend ← post_input.attr_trend
  .ok (sha (serializeHashData text image_description social_network trend))

/-- Reconstruction of the verdict from a cache row
(analysis_cache.py lines 111-119); `x or []` / `x or {}` default the
nullable columns. -/
def CacheRow.toOutput (row : CacheRow) : PostAnalysisOutput :=
  { risk_level := row.risk_level
    risk_score := row.risk_score
    bert_score := row.bert_score
    confidence := row.confidence
    reasoning := row.reasoning
    relevant_sources := row.relevant_sources.getD []
    factors := row.factors.getD [] }

/-- `AnalysisCache.get_analysis` (analysis_cache.py lines 77-128).
With no pool it returns `None` (line 87-88).  The hash is computed at line
90, BEFORE the `try` block starting at line 93, so a hashing error
propagates; only the storage lookup is inside the `try`, whose `except`
swallows any error into a miss (`None`). -/
def AnalysisCache.get_analysis (sha : String → String) (c : AnalysisCache)
    (post_input : PostInput) : Except PyErr (Option PostAnalysisOutput) :=
  match c.pool with
  | none => .ok none
  | some pool =>
    (AnalysisCache.generate_hash sha post_input).bind fun post_hash =>
      .ok (match pool.lookupByHash post_hash with
        | .ok (some row) => some row.toOutput
        | .ok none => none
        | .error _ => none)

/-- `AnalysisCache.save_analysis` (analysis_cache.py lines 130-201).
With no pool it returns `False`.  The hash is computed at line 148, before
the `try` block at line 151, so a hashing error propagates.  Inside the
`try`, the parameter tuple again reads `post_input.trend` (line 180); any
exception there or in the SQL is caught, rolls back, and returns `False`.
A successful upsert commits and returns `True`. -/
def AnalysisCache.save_analysis (sha : String → String) (c : AnalysisCache)
    (post_input : PostInput) (analysis : PostAnalysisOutput) :
    Except PyErr Bool :=
  match c.pool with
  | none => .ok false
  | some pool =>
    (AnalysisCache.generate_hash sha post_input).bind fun post_hash =>
      .ok (match
          (post_input.attr_trend).bind fun trend =>
            pool.insertOrUpdate
              { post_hash := post_hash
                post_text := post_input.text
                post_metadata := post_input.metadata
                image_description := post_input.image_description
                social_network := post_input.social_network
                trend := trend
                analysis := analysis } with
        | .ok _ => true
        | .error _ => false)

/-- `AnalysisCache.get_post_by_id` (analysis_cache.py lines 278-316): `None`
without a pool; otherwise the row for the id, with EVERY storage error
caught and turned into `None` (lines 311-313). -/
def AnalysisCache.get_post_by_id (c : AnalysisCache) (post_id : ℤ) :
    Option (List (String × JVal)) :=
  match c.pool with
  | none => none
  | some pool =>
    match pool.lookupById post_id with
    | .ok r => r
    | .error _ => none

/-- The dictionary returned by `AnalysisCache.get_posts_paginated`. -/
structure PagResult where
  data : List (List (String × JVal))
  total : ℕ
  page : ℤ
  limit : ℤ
  pages : ℤ

/-- `AnalysisCache.get_posts_paginated` (analysis_cache.py lines 318-377).
Without a pool, the early return at line 330 echoes the ORIGINAL `page` and
`limit` with empty data.  Otherwise the local `limit` is rebound to its
clamp into [1,100] and `page` to `max(1, page)` at lines 333-334, BEFORE
the `try`, so when either query inside the `try` fails the `except` at
lines 372-374 echoes the CLAMPED values with empty data.  On the successful
path `pages = (total + limit - 1) // limit` (line 362). -/
def AnalysisCache.get_posts_paginated (c : AnalysisCache) (page limit : ℤ) :
    PagResult :=
  match c.pool with
  | none => { data := [], total := 0, page := page, limit := limit, pages := 0 }
  | some pool =>
    let limit' := min (max 1 limit) 100
    let page' := max 1 page
    let offset := (page' - 1) * limit'
    match pool.countAll with
    | .error _ =>
      { data := [], total := 0, page := page', limit := limit', pages := 0 }
    | .ok total =>
      match pool.selectPage limit' offset with
      | .error _ =>
        { data := [], total := 0, page := page', limit := limit', pages := 0 }
      | .ok rows =>
        { data := rows
          total := total
          page := page'
          limit := limit'
          pages := ((total : ℤ) + limit' - 1) / limit' }

/-- A retrieval unit (`langchain_core.documents.Document`): page content plus
metadata.  Document metadata is modelled as a string-valued mapping: the only
key these operations read is `source`, which the ingestion path
(`add_documents`) stores as a string. -/
structure Document where
  page_content : String
  metadata : List (String × String)

/-- First-match lookup in a string-valued mapping (`d.get(k)`). -/
def lookupStr : List (String × String) → String → Option String
  | [], _ => none
  | (k, v) :: rest, key => if k = key then some v else lookupStr rest key

/-- A raw row of the vector table as produced by the ranked nearest-neighbour
query of `search_similar` (vector_db.py lines 84-96): nullable document text
and nullable metadata. -/
structure RawRow where
  document : Option String
  metadata : Option (List (String × String))

/-- `vector_db.py` lines 14-55: `VectorDB`.  `backend` is `none` exactly when
`_initialize` failed and left `self.embeddings = None`; otherwise it is the
composite oracle for `embed_query` plus the ranked SQL query, whose failures
(embedding backend, connection, SQL, metadata JSON parse) surface as a single
`Except` error. -/
structure VectorDB where
  backend : Option (String → ℕ → Except PyErr (List RawRow))

/-- Conversion of a raw row to a `Document` (vector_db.py lines 98-111):
`None` document text becomes `""`, `None` metadata becomes `{}`. -/
def RawRow.toDocument (row : RawRow) : Document :=
  { page_content := row.document.getD ""
    metadata := row.metadata.getD [] }

/-- `VectorDB.search_similar` (vector_db.py lines 57-118): empty list when
the embeddings backend is unavailable (lines 68-70, before the `try`);
otherwise the ranked rows, with ANY exception in the `try` caught and turned
into the empty list (lines 116-118).  It never raises. -/
def VectorDB.search_similar (db : VectorDB) (query : String) (k : ℕ) :
    List Document :=
  match db.backend with
  | none => []
  | some backend =>
    match backend query k with
    | .ok rows => rows.map RawRow.toDocument
    | .error _ => []

/-- The fixed string `get_context` returns when no documents are found
(vector_db.py line 134). -/
def noResultsContext : String :=
  "Nenhuma notícia confiável similar encontrada no banco de dados."

/-- The default source name used when a document has no `source` metadata
(vector_db.py lines 140 and 161). -/
def unknownSource : String := "Fonte desconhecida"

/-- `VectorDB.get_context` (vector_db.py lines 120-143): the fixed
"no results" string on the empty result, else numbered source-attributed
blocks joined by newlines. -/
def VectorDB.get_context (db : VectorDB) (query : String) (k : ℕ) : String :=
  let documents := db.search_similar query k
  if documents.isEmpty then noResultsContext
  else
    String.intercalate "\n" (documents.mapIdx fun i doc =>
      "[Fonte " ++ toString (i + 1) ++ ": " ++
        (lookupStr doc.metadata ("source")).getD unknownSource ++ "]\n" ++
        doc.page_content ++ "\n")

/-- The source name of one document (vector_db.py line 161). -/
def Document.sourceName (doc : Document) : String :=
  (lookupStr doc.metadata ("source")).getD unknownSource

/-- The loop of `VectorDB.get_sources` (vector_db.py lines 157-164): walk the
ranked documents keeping each source the first time it is seen (`seen` is
the membership set; the emitted list preserves encounter order). -/
def sourcesLoop : List Document → List String → List String
  | [], _ => []
  | doc :: rest, seen =>
    let source := doc.sourceName
    if source ∈ seen then sourcesLoop rest seen
    else source :: sourcesLoop rest (source :: seen)

/-- `VectorDB.get_sources` (vector_db.py lines 145-166). -/
def VectorDB.get_sources (db : VectorDB) (query : String) (k : ℕ) :
    List String :=
  sourcesLoop (db.search_similar query k) []

/-- First-seen deduplication of a list of names, the specification shape of
`get_sources` (same recursion, on the extracted names). -/
def dedupFirst {α : Type} [DecidableEq α] : List α → List α → List α
  | [], _ => []
  | s :: rest, seen =>
    if s ∈ seen then dedupFirst rest seen else s :: dedupFirst rest (s :: seen)

/-- Banker rounding of a rational to an integer, the `round` used at Python
level (ties to even). -/
def roundHalfEven (q : ℚ) : ℤ :=
  let f := ⌊q⌋
  if q - f < 1/2 then f
  else if 1/2 < q - f then f + 1
  else if f % 2 = 0 then f else f + 1

/-- `round(x, 3)` on scores (workflow.py lines 119-121), modelled over ℚ. -/
def round3 (q : ℚ) : ℚ := (roundHalfEven (q * 1000) : ℚ) / 1000

/-- Decimal rendering with three places, for the `{:.3f}` interpolation in
the prompt (agent.py line 145); no claim depends on this text. -/
def fmt3 (q : ℚ) : String :=
  let n := roundHalfEven (q * 1000)
  let sign := if n < 0 then "-" else ""
  let m := n.natAbs
  let frac := m % 1000
  let fracStr :=
    if frac < 10 then "00" ++ toString frac
    else if frac < 100 then "0" ++ toString frac
    else toString frac
  sign ++ toString (m / 1000) ++ "." ++ fracStr

mutual

/-- Rendering of a Python value into prompt text (`str(value)` in agent.py
line 157); the exact Python repr is abstracted, and no claim depends on this
text. -/
def jvalStr : JVal → String
  | .null => "None"
  | .str s => s
  | .num q => toString q
  | .boolean b => if b then "True" else "False"
  | .arr xs => "[" ++ jvalStrList xs ++ "]"
  | .obj fs => "\x7b" ++ jvalStrPairs fs ++ "\x7d"

def jvalStrList : List JVal → String
  | [] => ""
  | [x] => jvalStr x
  | x :: xs => jvalStr x ++ ", " ++ jvalStrList xs

def jvalStrPairs : List (String × JVal) → String
  | [] => ""
  | [(k, v)] => k ++ ": " ++ jvalStr v
  | (k, v) :: rest => k ++ ": " ++ jvalStr v ++ ", " ++ jvalStrPairs rest

end

/-- `FakeNewsAgent._build_analysis_prompt` (agent.py lines 140-171); the
optional sections are appended under Python truthiness (empty string, empty
dict and `None` all skip the section). -/
def build_analysis_prompt (input : PostAnalysisInput) (context : String) :
    String :=
  let parts : List String := [
    "Analise o seguinte post para detectar fake news:",
    "\nTEXTO DO POST:\n" ++ input.text,
    "\nSCORE BERT: " ++ fmt3 input.bert_score ++ " (0=confiável, 1=fake news)"]
  let parts :=
    if context = "" then parts
    else parts ++ ["\nCONTEXTO DE NOTÍCIAS CONFIÁVEIS SIMILARES:\n" ++ context]
  let parts :=
    if (input.image_description.getD "") = "" then parts
    else parts ++ ["\nDESCRIÇÃO DA IMAGEM:\n" ++ input.image_description.getD ""]
  let parts :=
    if input.metadata.isEmpty then parts
    else (parts ++ ["\nMETADADOS:"]) ++
      input.metadata.map (fun kv => "  - " ++ kv.1 ++ ": " ++ jvalStr kv.2)
  let parts :=
    if (input.social_network.getD "") = "" then parts
    else parts ++ ["\nREDE SOCIAL: " ++ input.social_network.getD ""]
  let parts := parts ++ [
    "\n\nForneça sua análise estruturada considerando: " ++
    "- O score do BERT (quanto maior, mais risco) " ++
    "- A comparação com as notícias confiáveis fornecidas " ++
    "- Os metadados do post " ++
    "- A consistência entre texto e imagem " ++
    "- O nível de risco deve ser: BAIXO, MEDIO, ALTO ou CRITICO"]
  String.intercalate "\n" parts

/-- The dependencies `FakeNewsAgent.analyze` calls out to (agent.py lines
112-128): the vector store retrieval methods of the injected `vector_db`,
and the structured-output LLM chain.  Each may raise. -/
structure AgentDeps where
  get_context : String → ℕ → Except PyErr String
  get_sources : String → ℕ → Except PyErr (List String)
  llm : String → Except PyErr PostAnalysisOutput

/-- `FakeNewsAgent._default_analysis` (agent.py lines 174-204): the
deterministic score-only fallback verdict. -/
def default_analysis (post_input : PostAnalysisInput) : PostAnalysisOutput :=
  let pick : String × ℚ :=
    if 0.8 ≤ post_input.bert_score then ("CRITICO", post_input.bert_score)
    else if 0.6 ≤ post_input.bert_score then ("ALTO", post_input.bert_score * 0.9)
    else if 0.4 ≤ post_input.bert_score then ("MEDIO", post_input.bert_score * 0.7)
    else ("BAIXO", post_input.bert_score * 0.5)
  { risk_level := pick.1
    risk_score := pick.2
    bert_score := post_input.bert_score
    confidence := 0.6
    reasoning :=
      "Análise automática baseada no score BERT devido a erro no processamento."
    relevant_sources := []
    factors := [
      (("bert_score"), JVal.num post_input.bert_score),
      (("has_image"), JVal.boolean post_input.image_description.isSome),
      (("metadata_count"), JVal.num (post_input.metadata.length : ℚ))] }

/-- The `try` body of `FakeNewsAgent.analyze` (agent.py lines 112-133):
retrieve context (k=5) and sources (k=3) for the post text, build the
prompt, invoke the LLM for a structured verdict, then overwrite the
LLM-produced `relevant_sources` with the independently retrieved list. -/
def runPrimary (d : AgentDeps) (post_input : PostAnalysisInput) :
    Except PyErr PostAnalysisOutput :=
  (d.get_context post_input.text 5).bind fun context =>
  (d.get_sources post_input.text 3).bind fun sources =>
  (d.llm (build_analysis_prompt post_input context)).bind fun result =>
  .ok { result with relevant_sources := sources }

/-- `FakeNewsAgent.analyze` (agent.py lines 102-138): the primary path, with
ANY exception caught and replaced by `default_analysis`. -/
def analyze (d : AgentDeps) (post_input : PostAnalysisInput) :
    PostAnalysisOutput :=
  match runPrimary d post_input with
  | .ok result => result
  | .error _ => default_analysis post_input

/-- The dependencies of `FakeNewsWorkflow` (workflow.py lines 18-37): the
classifier (whose own `classify` catches inference failures internally and
always returns a score, bert_classifier.py lines 50-83), the agent
dependencies, and the optional analysis cache. -/
structure WorkflowDeps where
  classify : String → ℚ
  agent : AgentDeps
  cache : Option AnalysisCache

/-- The JSON dictionary produced by `_output_to_dict` plus the flags added
around it.  Optional fields model the presence or absence of the
corresponding dict keys: the success path has no `error`/`error_message`
keys, the error path has no `from_cache` key. -/
structure WfResult where
  error : Option Bool
  error_message : Option String
  risk_level : String
  risk_score : ℚ
  bert_score : ℚ
  confidence : ℚ
  reasoning : String
  relevant_sources : List String
  factors : List (String × JVal)
  from_cache : Option Bool

/-- `FakeNewsWorkflow._output_to_dict` (workflow.py lines 115-125) followed
by setting `result["from_cache"]` (lines 60 and 85). -/
def mkResult (output : PostAnalysisOutput) (fromCache : Bool) : WfResult :=
  { error := none
    error_message := none
    risk_level := output.risk_level
    risk_score := round3 output.risk_score
    bert_score := round3 output.bert_score
    confidence := round3 output.confidence
    reasoning := output.reasoning
    relevant_sources := output.relevant_sources
    factors := output.factors
    from_cache := some fromCache }

/-- `FakeNewsWorkflow._error_output` (workflow.py lines 127-139): the
conservative default verdict; note it sets NO `from_cache` key. -/
def error_output (e : PyErr) : WfResult :=
  { error := some true
    error_message := some e.pymsg
    risk_level := "MEDIO"
    risk_score := 0.5
    bert_score := 0.5
    confidence := 0.0
    reasoning := "Erro no processamento: " ++ e.pymsg
    relevant_sources := []
    factors := []
    from_cache := none }

/-- The body of `FakeNewsWorkflow._parse_post_json` (workflow.py lines
106-113) as a function of the four dict lookups it performs, composed with
pydantic validation of each field of `PostInput`: `text` defaults to `""`
and must be a string, `metadata` defaults to `{}` and must be a dict,
the two optional fields accept a string or null. -/
def parseFields (text metadata image_description social_network : Option JVal) :
    Except PyErr PostInput :=
  (Except.bind (match text with
    | none => Except.ok ""
    | some (.str s) => Except.ok s
    | some _ => Except.error (.validationError ("text")))) fun textV =>
  (Except.bind (match metadata with
    | none => Except.ok []
    | some (.obj fields) => Except.ok fields
    | some _ => Except.error (.validationError ("metadata")))) fun metadataV =>
  (Except.bind (match image_description with
    | none => Except.ok none
    | some .null => Except.ok none
    | some (.str s) => Except.ok (some s)
    | some _ => Except.error (.validationError ("image_description")))) fun imageV =>
  (Except.bind (match social_network with
    | none => Except.ok none
    | some .null => Except.ok none
    | some (.str s) => Except.ok (some s)
    | some _ => Except.error (.validationError ("social_network")))) fun socialV =>
  .ok { text := textV
        metadata := metadataV
        image_description := imageV
        social_network := socialV }

/-- `FakeNewsWorkflow._parse_post_json` (workflow.py lines 106-113).  It
reads ONLY the keys `text`, `metadata`, `image_description` and
`social_network`; in particular it never reads `trend`. -/
def parse_post_json (post_json : List (String × JVal)) : Except PyErr PostInput :=
  parseFields (lookupKey post_json ("text")) (lookupKey post_json ("metadata"))
    (lookupKey post_json ("image_description"))
    (lookupKey post_json ("social_network"))

/-- Step 2 of `process_post_json` (workflow.py lines 55-61): the cache is
consulted only when configured. -/
def cacheLookup (sha : String → String) (d : WorkflowDeps) (post : PostInput) :
    Except PyErr (Option PostAnalysisOutput) :=
  match d.cache with
  | none => .ok none
  | some c => c.get_analysis sha post

/-- Step 6 of `process_post_json` (workflow.py lines 80-81): the best-effort
cache write, performed only when a cache is configured; its boolean result
is ignored but an exception it raises propagates to the outer handler. -/
def saveStep (sha : String → String) (d : WorkflowDeps) (post : PostInput)
    (output : PostAnalysisOutput) : Except PyErr Bool :=
  match d.cache with
  | none => .ok false
  | some c => c.save_analysis sha post output

/-- The stages of `process_post_json` after parsing (workflow.py lines
55-86): cache lookup (hit returns the cached verdict flagged
`from_cache=True`), BERT classification, construction of the analysis
input, the agent call, the cache write, and result shaping flagged
`from_cache=False`. -/
def stagesAfterParse (sha : String → String) (d : WorkflowDeps)
    (post : PostInput) : Except PyErr WfResult :=
  (cacheLookup sha d post).bind fun cached =>
  match cached with
  | some cachedAnalysis => .ok (mkResult cachedAnalysis true)
  | none =>
    let bert_score := d.classify post.text
    (mkPostAnalysisInput post bert_score).bind fun analysis_input =>
    let analysis_output := analyze d.agent analysis_input
    (saveStep sha d post analysis_output).bind fun _ =>
    .ok (mkResult analysis_output false)

/-- The `try` body of `FakeNewsWorkflow.process_post_json` (workflow.py
lines 50-86). -/
def runStages (sha : String → String) (d : WorkflowDeps)
    (post_json : List (String × JVal)) : Except PyErr WfResult :=
  (parse_post_json post_json).bind (stagesAfterParse sha d)

/-- `FakeNewsWorkflow.process_post_json` (workflow.py lines 39-90): the full
pipeline, with ANY uncaught exception at any stage caught by the outer
handler (lines 88-90) and replaced by `error_output`. -/
def process_post_json (sha : String → String) (d : WorkflowDeps)
    (post_json : List (String × JVal)) : WfResult :=
  match runStages sha d post_json with
  | .ok result => result
  | .error e => error_output e

/-- An HTTP response of the API layer: a JSON body or an HTTPException with
a status code and detail string. -/
inductive HttpResponse where
  | ok (body : List (String × JVal))
  | err (status : ℕ) (detail : String)

/-- `GET /posts/{post_id}` (api.py lines 95-118): 503 when the global
workflow or its cache was never initialized; otherwise the cache lookup,
whose `None` (covering both an unknown id and a swallowed storage error)
becomes 404.  The `except Exception` 500 branch (lines 116-118) would
require `get_post_by_id` itself to raise, which it never does. -/
def api_get_post_by_id (workflow : Option WorkflowDeps) (post_id : ℤ) :
    HttpResponse :=
  match workflow with
  | none => .err 503 ("Cache não disponível")
  | some w =>
    match w.cache with
    | none => .err 503 ("Cache não disponível")
    | some c =>
      match c.get_post_by_id post_id with
      | none =>
        .err 404 ("Análise com ID " ++ toString post_id ++ " não encontrada")
      | some post => .ok post

/-- The HTTP status of a response (200 for a JSON body). -/
def HttpResponse.statusOf : HttpResponse → ℕ
  | .ok _ => 200
  | .err status _ => status

/-- A stand-in for `hashlib.sha256(...).hexdigest()`; the claims never depend
on the internals of the hash function. -/
def sha0 : String → String := fun s => s

/-- A healthy pool oracle whose table is empty. -/
def pool0 : PoolConn :=
  { lookupByHash := fun _ => .ok none
    insertOrUpdate := fun _ => .ok ()
    countAll := .ok 0
    selectPage := fun _ _ => .ok []
    lookupById := fun _ => .ok none }

/-- A cache whose pool initialized successfully. -/
def cacheLive : AnalysisCache := { pool := some pool0 }

/-- A cache whose pool failed to initialize (`self.pool = None`). -/
def cacheNoPool : AnalysisCache := { pool := none }

/-- The example post of `main.py` lines 178-187, as a parsed `PostInput`. -/
def post0 : PostInput :=
  { text := "Breaking: Cientistas descobrem que vacinas causam autismo!"
    metadata := []
    image_description := none
    social_network := some "Facebook" }

/-- `post0` with different engagement metadata (same normalized tuple). -/
def post0Metadata : PostInput :=
  { post0 with metadata := [(("likes"), JVal.num 15000), (("shares"), JVal.num 500)] }

/-- A concrete verdict used to exercise `save_analysis`. -/
def verdict0 : PostAnalysisOutput :=
  { risk_level := "BAIXO"
    risk_score := 0.1
    bert_score := 0.1
    confidence := 0.9
    reasoning := "Fontes confiáveis confirmam o conteúdo."
    relevant_sources := []
    factors := [] }

/-- Agent dependencies whose retrieval path fails (for exercising the
fallback). -/
def agentDepsFail : AgentDeps :=
  { get_context := fun _ _ => .error (.exception ("embeddings indisponíveis"))
    get_sources := fun _ _ => .error (.exception ("embeddings indisponíveis"))
    llm := fun _ => .error (.exception ("LLM indisponível")) }

/-- A pool whose by-id lookup hits a storage failure. -/
def poolIdFail : PoolConn :=
  { pool0 with lookupById := fun _ => .error (.exception ("falha de armazenamento")) }

/-- A fully initialized workflow whose cache storage fails on by-id lookups. -/
def wfStorageFail : WorkflowDeps :=
  { classify := fun _ => 0.5
    agent := agentDepsFail
    cache := some { pool := some poolIdFail } }

/-- A pagination pool over 45 stored rows. -/
def pool45 : PoolConn := { pool0 with countAll := .ok 45 }

/-- A cache over the 45-row pool. -/
def cache45 : AnalysisCache := { pool := some pool45 }

/-- A pool whose count query hits a storage failure. -/
def poolCountFail : PoolConn :=
  { pool0 with countAll := .error (.exception ("falha na contagem")) }

/-- A cache over the count-failing pool. -/
def cacheCountFail : AnalysisCache := { pool := some poolCountFail }

/-- A vector store whose embeddings backend failed to initialize. -/
def vecDown : VectorDB := { backend := none }

/-- A BERT score exactly at the CRITICO boundary, for the fallback witness. -/
def input08 : PostAnalysisInput :=
  { text := "Vacinas causam autismo"
    metadata := []
    image_description := none
    social_network := none
    bert_score := 0.8 }

/-- An LLM verdict that fabricates its own source list, for the C8 witness. -/
def llmOut8 : PostAnalysisOutput :=
  { risk_level := "ALTO"
    risk_score := 0.7
    bert_score := 0.65
    confidence := 0.85
    reasoning := "Contradiz fontes confiáveis."
    relevant_sources := ["fonte-inventada-pelo-llm"]
    factors := [(("bert_score"), JVal.num 0.65)] }

/-- Agent dependencies whose calls all succeed, the retrieval returning a
fixed source list, for the C8 witness. -/
def agentDepsOk : AgentDeps :=
  { get_context := fun _ _ => .ok ("[Fonte 1: g1.globo.com]\nConteúdo.\n")
    get_sources := fun _ _ => .ok ["g1.globo.com", "bbc.com"]
    llm := fun _ => .ok llmOut8 }

/-- A request whose `text` field is a number: pydantic parsing fails, for
the C4 witness. -/
def jsonBadText : List (String × JVal) := [(("text"), JVal.num 1)]

/-- A workflow with no configured cache, a fixed classifier and failing
agent dependencies (the agent then falls back internally, which is not an
exception), for the C4 witness. -/
def wfNoCache : WorkflowDeps :=
  { classify := fun _ => 0.5
    agent := agentDepsFail
    cache := none }

/-- A well-formed request dictionary, for the C4 witness. -/
def jsonGood : List (String × JVal) :=
  [(("text"), JVal.str "Breaking: Cientistas descobrem que vacinas causam autismo!"),
   (("social_network"), JVal.str "Facebook")]

/-- The successful-run result for `jsonGood` through `wfNoCache` (the agent
falls back internally; no stage raises). -/
def wfGoodRun : WfResult :=
  mkResult (analyze agentDepsFail
    { text := "Breaking: Cientistas descobrem que vacinas causam autismo!"
      metadata := []
      image_description := none
      social_network := some "Facebook"
      bert_score := 0.5 }) false

theorem dedupFirst_mem {α : Type} [DecidableEq α] (l : List α) :
    ∀ (seen : List α) (x : α), x ∈ dedupFirst l seen ↔ (x ∈ l ∧ x ∉ seen) := by
  induction l with
  | nil => simp [dedupFirst]
  | cons a rest ih =>
    intro seen x
    by_cases h : a ∈ seen
    · simp only [dedupFirst, if_pos h, ih]
      constructor
      · rintro ⟨hx, hns⟩
        exact ⟨List.mem_cons_of_mem _ hx, hns⟩
      · rintro ⟨hx, hns⟩
        rcases List.mem_cons.mp hx with rfl | hx
        · exact absurd h hns
        · exact ⟨hx, hns⟩
    · simp only [dedupFirst, if_neg h]
      constructor
      · intro hx
        rcases List.mem_cons.mp hx with rfl | hx
        · exact ⟨List.mem_cons_self _ _, h⟩
        · rcases (ih _ _).mp hx with ⟨h1, h2⟩
          refine ⟨List.mem_cons_of_mem _ h1, fun hc => h2 (List.mem_cons_of_mem _ hc)⟩
      · rintro ⟨hx, hns⟩
        rcases List.mem_cons.mp hx with rfl | hx
        · exact List.mem_cons_self _ _
        · by_cases hxa : x = a
          · subst hxa
            exact List.mem_cons_self _ _
          · refine List.mem_cons_of_mem _ ((ih _ _).mpr ⟨hx, ?_⟩)
            intro hc
            rcases List.mem_cons.mp hc with h1 | h1
            · exact hxa h1
            · exact hns h1

theorem dedupFirst_nodup {α : Type} [DecidableEq α] (l : List α) :
    ∀ seen : List α, (dedupFirst l seen).Nodup := by
  induction l with
  | nil =>
    intro seen
    simp [dedupFirst]
  | cons a rest ih =>
    intro seen
    by_cases h : a ∈ seen
    · simpa [dedupFirst, if_pos h] using ih seen
    · rw [dedupFirst, if_neg h]
      refine List.nodup_cons.mpr ⟨?_, ih _⟩
      intro hc
      exact ((dedupFirst_mem rest _ a).mp hc).2 (List.mem_cons_self _ _)

theorem dedupFirst_pairwise {α : Type} [DecidableEq α] (l : List α) :
    ∀ seen : List α,
      (dedupFirst l seen).Pairwise (fun x y => l.indexOf x < l.indexOf y) := by
  induction l with
  | nil =>
    intro seen
    simp [dedupFirst]
  | cons a rest ih =>
    intro seen
    by_cases h : a ∈ seen
    · rw [dedupFirst, if_pos h]
      refine List.Pairwise.imp_of_mem ?_ (ih seen)
      intro x y hx hy hlt
      have hxa : x ≠ a := fun he => ((dedupFirst_mem rest seen x).mp hx).2 (he ▸ h)
      have hya : y ≠ a := fun he => ((dedupFirst_mem rest seen y).mp hy).2 (he ▸ h)
      rw [List.indexOf_cons_ne _ (Ne.symm hxa), List.indexOf_cons_ne _ (Ne.symm hya)]
      exact Nat.succ_lt_succ hlt
    · rw [dedupFirst, if_neg h]
      refine List.Pairwise.cons ?_ ?_
      · intro y hy
        have hya : y ≠ a := fun he =>
          ((dedupFirst_mem rest _ y).mp hy).2 (he ▸ List.mem_cons_self a seen)
        rw [List.indexOf_cons_self, List.indexOf_cons_ne _ (Ne.symm hya)]
        exact Nat.succ_pos _
      · refine List.Pairwise.imp_of_mem ?_ (ih (a :: seen))
        intro x y hx hy hlt
        have hxa : x ≠ a := fun he =>
          ((dedupFirst_mem rest _ x).mp hx).2 (he ▸ List.mem_cons_self a seen)
        have hya : y ≠ a := fun he =>
          ((dedupFirst_mem rest _ y).mp hy).2 (he ▸ List.mem_cons_self a seen)
        rw [List.indexOf_cons_ne _ (Ne.symm hxa), List.indexOf_cons_ne _ (Ne.symm hya)]
        exact Nat.succ_lt_succ hlt

theorem sourcesLoop_eq_dedupFirst (docs : List Document) :
    ∀ seen : List String,
      sourcesLoop docs seen = dedupFirst (docs.map Document.sourceName) seen := by
  induction docs with
  | nil =>
    intro seen
    rfl
  | cons doc rest ih =>
    intro seen
    by_cases h : doc.sourceName ∈ seen
    · simp [sourcesLoop, dedupFirst, if_pos h, ih]
    · simp [sourcesLoop, dedupFirst, if_neg h, ih]

theorem ediv_ceil_eq (a : ℕ) (b : ℤ) (hb : 0 < b) :
    ((a : ℤ) + b - 1) / b = ⌈(a : ℚ) / (b : ℚ)⌉ := by
  have hbne : b ≠ 0 := ne_of_gt hb
  set q : ℤ := ((a : ℤ) + b - 1) / b with hq
  have hdm := Int.ediv_add_emod ((a : ℤ) + b - 1) b
  have hnn := Int.emod_nonneg ((a : ℤ) + b - 1) hbne
  have hlt := Int.emod_lt_of_pos ((a : ℤ) + b - 1) hb
  have hc : b * q = q * b := mul_comm b q
  have h1 : (a : ℤ) ≤ q * b := by linarith [hdm, hlt, hc]
  have h2 : (q - 1) * b < (a : ℤ) := by linarith [hdm, hnn, hc]
  have hbq : (0 : ℚ) < (b : ℚ) := by exact_mod_cast hb
  symm
  rw [Int.ceil_eq_iff]
  constructor
  · rw [lt_div_iff₀ hbq]
    exact_mod_cast h2
  · rw [div_le_iff₀ hbq]
    exact_mod_cast h1

/-- C1: the claim fails on the code.  With an initialized pool,
`AnalysisCache.get_analysis` and `AnalysisCache.save_analysis` raise
`AttributeError` for every `PostInput`: `_generate_hash` reads the `trend`
attribute, which `PostInput` does not declare, and the hash is computed
before (outside) the `try` blocks, so the error is not swallowed.  Evaluated
here at a concrete post and verdict. -/
theorem C1_cache_raises_attribute_error :
    AnalysisCache.get_analysis sha0 cacheLive post0 =
      .error (.attributeError ("trend")) ∧
    AnalysisCache.save_analysis sha0 cacheLive post0 verdict0 =
      .error (.attributeError ("trend")) :=
  ⟨rfl, rfl⟩

/-- C2: the claim fails on the code.  `_generate_hash` never produces a
SHA-256 fingerprint: it raises `AttributeError` reading the missing `trend`
attribute, on a post with empty metadata and on the same post with
engagement metadata alike. -/
theorem C2_generate_hash_raises :
    AnalysisCache.generate_hash sha0 post0 = .error (.attributeError ("trend")) ∧
    AnalysisCache.generate_hash sha0 post0Metadata =
      .error (.attributeError ("trend")) :=
  ⟨rfl, rfl⟩

/-- C5 counterexample: when the pool is uninitialized,
`get_posts_paginated` echoes the raw `page` and `limit` back unclamped
(`limit = 500 > 100`, `page = -5 < 1`), so the clamping claim fails as
stated "for every page and limit argument". -/
theorem C5_counterexample :
    (AnalysisCache.get_posts_paginated cacheNoPool (-5) 500).limit = 500 ∧
    ¬ (AnalysisCache.get_posts_paginated cacheNoPool (-5) 500).limit ≤ 100 ∧
    (AnalysisCache.get_posts_paginated cacheNoPool (-5) 500).page = -5 ∧
    ¬ 1 ≤ (AnalysisCache.get_posts_paginated cacheNoPool (-5) 500).page := by
  refine ⟨rfl, by decide, rfl, by decide⟩

/-- C5 amended: on the successful storage path `get_posts_paginated` clamps
`limit` into [1,100] and `page` to ≥ 1, echoes the clamped values back, and
returns `pages = ⌈total / limit⌉`.  When either query fails, the CLAMPED
`page` and `limit` are echoed with empty data, `total = 0` and `pages = 0`
(the clamping at lines 333-334 precedes the `try`); only when the pool was
never initialized are the original unclamped `page` and `limit` echoed
back. -/
theorem C5_amended_pagination (c : AnalysisCache) (page limit : ℤ) :
    (c.pool = none →
      c.get_posts_paginated page limit =
        { data := [], total := 0, page := page, limit := limit, pages := 0 }) ∧
    (∀ pool e, c.pool = some pool → pool.countAll = .error e →
      c.get_posts_paginated page limit =
        { data := [], total := 0, page := max 1 page,
          limit := min (max 1 limit) 100, pages := 0 }) ∧
    (∀ pool total e, c.pool = some pool → pool.countAll = .ok total →
      pool.selectPage (min (max 1 limit) 100)
        ((max 1 page - 1) * min (max 1 limit) 100) = .error e →
      c.get_posts_paginated page limit =
        { data := [], total := 0, page := max 1 page,
          limit := min (max 1 limit) 100, pages := 0 }) ∧
    (∀ pool total rows, c.pool = some pool → pool.countAll = .ok total →
      pool.selectPage (min (max 1 limit) 100)
        ((max 1 page - 1) * min (max 1 limit) 100) = .ok rows →
      (c.get_posts_paginated page limit).limit = min (max 1 limit) 100 ∧
      1 ≤ (c.get_posts_paginated page limit).limit ∧
      (c.get_posts_paginated page limit).limit ≤ 100 ∧
      (c.get_posts_paginated page limit).page = max 1 page ∧
      1 ≤ (c.get_posts_paginated page limit).page ∧
      (c.get_posts_paginated page limit).total = total ∧
      (c.get_posts_paginated page limit).data = rows ∧
      (c.get_posts_paginated page limit).pages =
        ⌈(total : ℚ) / ((min (max 1 limit) 100 : ℤ) : ℚ)⌉) := by
  refine ⟨?_, ?_, ?_, ?_⟩
  · intro hp
    unfold AnalysisCache.get_posts_paginated
    rw [hp]
  · intro pool e hp hcount
    unfold AnalysisCache.get_posts_paginated
    rw [hp]
    simp only [hcount]
  · intro pool total e hp hcount hsel
    unfold AnalysisCache.get_posts_paginated
    rw [hp]
    simp only [hcount, hsel]
  · intro pool total rows hp hcount hsel
    have hres : c.get_posts_paginated page limit =
        { data := rows
          total := total
          page := max 1 page
          limit := min (max 1 limit) 100
          pages := ((total : ℤ) + min (max 1 limit) 100 - 1) / min (max 1 limit) 100 } := by
      unfold AnalysisCache.get_posts_paginated
      rw [hp]
      simp only [hcount, hsel]
    rw [hres]
    refine ⟨rfl, ?_, ?_, rfl, ?_, rfl, rfl, ?_⟩
    · show (1 : ℤ) ≤ min (max 1 limit) 100
      omega
    · show min (max 1 limit) 100 ≤ (100 : ℤ)
      omega
    · show (1 : ℤ) ≤ max 1 page
      omega
    exact ediv_ceil_eq total _ (by omega)

/-- C5 witness: 45 stored rows with `page=1`, `limit=20` give `pages=3`;
and on a count-query failure with `page=-5`, `limit=500` the clamped values
`page=1`, `limit=100` are echoed back; both by the amended pagination
theorem. -/
theorem C5_witness :
    (AnalysisCache.get_posts_paginated cache45 1 20).pages = 3 ∧
    (AnalysisCache.get_posts_paginated cache45 1 20).limit = 20 ∧
    (AnalysisCache.get_posts_paginated cache45 1 20).page = 1 ∧
    (AnalysisCache.get_posts_paginated cacheCountFail (-5) 500).limit = 100 ∧
    (AnalysisCache.get_posts_paginated cacheCountFail (-5) 500).page = 1 := by
  have h := (C5_amended_pagination cache45 1 20).2.2.2 pool45 45 [] rfl rfl rfl
  have hf := (C5_amended_pagination cacheCountFail (-5) 500).2.1 poolCountFail
    (.exception ("falha na contagem")) rfl rfl
  refine ⟨?_, ?_, ?_, ?_, ?_⟩
  · rw [h.2.2.2.2.2.2.2]
    rw [show ((min (max 1 (20 : ℤ)) 100 : ℤ) : ℚ) = 20 by norm_num]
    rw [Int.ceil_eq_iff]
    norm_num
  · rw [h.1]
    decide
  · rw [h.2.2.2.1]
    decide
  · rw [hf]
    decide
  · rw [hf]
    decide

/-- C6: when the embeddings backend is unavailable, `search_similar` returns
the empty sequence, `get_context` the fixed "no results" string, and
`get_sources` the empty list, for every query and k; all three are total
functions of the model (every internal failure is caught in the source), so
no exception surfaces. -/
theorem C6_backend_unavailable_degrades (db : VectorDB) (query : String)
    (k : ℕ) (h : db.backend = none) :
    db.search_similar query k = [] ∧
    db.get_context query k = noResultsContext ∧
    db.get_sources query k = [] := by
  have hs : db.search_similar query k = [] := by
    unfold VectorDB.search_similar
    rw [h]
  refine ⟨hs, ?_, ?_⟩
  · unfold VectorDB.get_context
    rw [hs]
    rfl
  · unfold VectorDB.get_sources
    rw [hs]
    rfl

/-- C6 witness: the degradation theorem applied to a concrete vector store
with a failed backend. -/
theorem C6_witness :
    vecDown.search_similar ("consulta") 5 = [] ∧
    vecDown.get_context ("consulta") 5 = noResultsContext ∧
    vecDown.get_sources ("consulta") 5 = [] :=
  C6_backend_unavailable_degrades vecDown ("consulta") 5 rfl

/-- C7 counterexample: with the workflow and cache fully initialized, a
storage failure during the by-id lookup is swallowed by
`AnalysisCache.get_post_by_id` (it returns `None`), so `GET /posts/7`
answers 404, not 500 as the claim states. -/
theorem C7_counterexample :
    (api_get_post_by_id (some wfStorageFail) 7).statusOf = 404 ∧
    ¬ (api_get_post_by_id (some wfStorageFail) 7).statusOf = 500 := by
  refine ⟨rfl, by decide⟩

/-- C7 amended: the endpoint answers 503 when the workflow or its cache is
uninitialized; otherwise it answers 404 exactly when the cache lookup
produces no row — including when the storage lookup fails, since the cache
swallows storage errors into a miss — and 200 with the row otherwise; the
500 branch is unreachable for storage failures. -/
theorem C7_amended_get_post_by_id (workflow : Option WorkflowDeps)
    (post_id : ℤ) :
    (workflow = none →
      api_get_post_by_id workflow post_id = .err 503 ("Cache não disponível")) ∧
    (∀ w, workflow = some w → w.cache = none →
      api_get_post_by_id workflow post_id = .err 503 ("Cache não disponível")) ∧
    (∀ w c, workflow = some w → w.cache = some c →
      c.get_post_by_id post_id = none →
      api_get_post_by_id workflow post_id =
        .err 404 ("Análise com ID " ++ toString post_id ++ " não encontrada")) ∧
    (∀ w c row, workflow = some w → w.cache = some c →
      c.get_post_by_id post_id = some row →
      api_get_post_by_id workflow post_id = .ok row) ∧
    (∀ w c pool e, workflow = some w → w.cache = some c →
      c.pool = some pool → pool.lookupById post_id = .error e →
      api_get_post_by_id workflow post_id =
        .err 404 ("Análise com ID " ++ toString post_id ++ " não encontrada")) := by
  refine ⟨?_, ?_, ?_, ?_, ?_⟩
  · rintro rfl
    rfl
  · rintro w rfl hc
    simp only [api_get_post_by_id, hc]
  · rintro w c rfl hc hmiss
    simp only [api_get_post_by_id, hc, hmiss]
  · rintro w c row rfl hc hrow
    simp only [api_get_post_by_id, hc, hrow]
  · rintro w c pool e rfl hc hpool herr
    have hmiss : c.get_post_by_id post_id = none := by
      simp only [AnalysisCache.get_post_by_id, hpool, herr]
    simp only [api_get_post_by_id, hc, hmiss]

/-- C7 witness: the amended endpoint theorem applied to the uninitialized
workflow, giving the 503 branch concretely. -/
theorem C7_witness :
    api_get_post_by_id none 3 = .err 503 ("Cache não disponível") :=
  (C7_amended_get_post_by_id none 3).1 rfl

/-- C9: for every query and k, `get_sources` returns exactly the source
names of the documents `search_similar` returns (defaulting to
"Fonte desconhecida" where metadata has no source), with no repeated
element and with first-seen order preserved: along the output, the index of
the first occurrence of each name in the ranked name list is strictly
increasing. -/
theorem C9_get_sources_dedup_first_seen (db : VectorDB) (query : String)
    (k : ℕ) :
    (db.get_sources query k).Nodup ∧
    (∀ s, s ∈ db.get_sources query k ↔
      s ∈ (db.search_similar query k).map Document.sourceName) ∧
    (db.get_sources query k).Pairwise (fun a b =>
      ((db.search_similar query k).map Document.sourceName).indexOf a <
        ((db.search_similar query k).map Document.sourceName).indexOf b) := by
  have hloop : db.get_sources query k =
      dedupFirst ((db.search_similar query k).map Document.sourceName) [] := by
    unfold VectorDB.get_sources
    exact sourcesLoop_eq_dedupFirst _ []
  rw [hloop]
  refine ⟨dedupFirst_nodup _ [], ?_, dedupFirst_pairwise _ []⟩
  intro s
  rw [dedupFirst_mem]
  simp

/-- C3: whenever the primary retrieval/prompting/LLM path of
`FakeNewsAgent.analyze` raises, the verdict is the deterministic score-only
fallback, with the boundaries exact at 0.4, 0.6 and 0.8, confidence fixed at
0.6, empty sources, and factors recording the score, image presence and
metadata count. -/
theorem C3_agent_fallback_thresholds (d : AgentDeps)
    (post_input : PostAnalysisInput) (e : PyErr)
    (hrun : runPrimary d post_input = .error e)
    (_h0 : 0 ≤ post_input.bert_score) (_h1 : post_input.bert_score ≤ 1) :
    (analyze d post_input).confidence = 0.6 ∧
    (analyze d post_input).relevant_sources = [] ∧
    (analyze d post_input).bert_score = post_input.bert_score ∧
    (analyze d post_input).reasoning =
      "Análise automática baseada no score BERT devido a erro no processamento." ∧
    (analyze d post_input).factors = [
      (("bert_score"), JVal.num post_input.bert_score),
      (("has_image"), JVal.boolean post_input.image_description.isSome),
      (("metadata_count"), JVal.num (post_input.metadata.length : ℚ))] ∧
    (0.8 ≤ post_input.bert_score →
      (analyze d post_input).risk_level = "CRITICO" ∧
      (analyze d post_input).risk_score = post_input.bert_score) ∧
    (0.6 ≤ post_input.bert_score → post_input.bert_score < 0.8 →
      (analyze d post_input).risk_level = "ALTO" ∧
      (analyze d post_input).risk_score = post_input.bert_score * 0.9) ∧
    (0.4 ≤ post_input.bert_score → post_input.bert_score < 0.6 →
      (analyze d post_input).risk_level = "MEDIO" ∧
      (analyze d post_input).risk_score = post_input.bert_score * 0.7) ∧
    (post_input.bert_score < 0.4 →
      (analyze d post_input).risk_level = "BAIXO" ∧
      (analyze d post_input).risk_score = post_input.bert_score * 0.5) := by
  have ha : analyze d post_input = default_analysis post_input := by
    unfold analyze
    rw [hrun]
  rw [ha]
  unfold default_analysis
  refine ⟨rfl, rfl, rfl, rfl, rfl, ?_, ?_, ?_, ?_⟩
  · intro hc
    rw [if_pos hc]
    exact ⟨rfl, rfl⟩
  · intro hlo hhi
    rw [if_neg (by linarith), if_pos hlo]
    exact ⟨rfl, rfl⟩
  · intro hlo hhi
    rw [if_neg (by linarith), if_neg (by linarith), if_pos hlo]
    exact ⟨rfl, rfl⟩
  · intro hhi
    rw [if_neg (by linarith), if_neg (by linarith), if_neg (by linarith)]
    exact ⟨rfl, rfl⟩

/-- C3 witness: with a failing retrieval path and `bert_score = 0.8`, the
fallback theorem yields exactly the CRITICO verdict with
`risk_score = 0.8`, `confidence = 0.6` and empty sources. -/
theorem C3_witness :
    (analyze agentDepsFail input08).risk_level = "CRITICO" ∧
    (analyze agentDepsFail input08).risk_score = 0.8 ∧
    (analyze agentDepsFail input08).confidence = 0.6 ∧
    (analyze agentDepsFail input08).relevant_sources = [] := by
  have h := C3_agent_fallback_thresholds agentDepsFail input08
    (.exception ("embeddings indisponíveis")) rfl (by norm_num [input08])
    (by norm_num [input08])
  have hcrit := h.2.2.2.2.2.1 (by norm_num [input08])
  exact ⟨hcrit.1, hcrit.2, h.1, h.2.1⟩

/-- C8: on the successful (non-fallback) path of `FakeNewsAgent.analyze`,
whatever `relevant_sources` the LLM produced, the returned verdict carries
the independently retrieved source list (`get_sources` on the post text with
k=3), and every LLM-authored field other than `relevant_sources` is returned
unchanged. -/
theorem C8_sources_overwritten_on_success (d : AgentDeps)
    (post_input : PostAnalysisInput) (context : String)
    (sources : List String) (llmOut : PostAnalysisOutput)
    (hctx : d.get_context post_input.text 5 = .ok context)
    (hsrc : d.get_sources post_input.text 3 = .ok sources)
    (hllm : d.llm (build_analysis_prompt post_input context) = .ok llmOut) :
    analyze d post_input = { llmOut with relevant_sources := sources } := by
  simp only [analyze, runPrimary, hctx, hsrc, hllm, Except.bind]

/-- C8 witness: on a concrete successful run the LLM-fabricated source list
is replaced by the retrieved one and the risk fields pass through. -/
theorem C8_witness :
    analyze agentDepsOk input08 =
      { llmOut8 with relevant_sources := ["g1.globo.com", "bbc.com"] } :=
  C8_sources_overwritten_on_success agentDepsOk input08
    ("[Fonte 1: g1.globo.com]\nConteúdo.\n") ["g1.globo.com", "bbc.com"]
    llmOut8 rfl rfl rfl

theorem runStages_ok_shape (sha : String → String) (d : WorkflowDeps)
    (post_json : List (String × JVal)) (r : WfResult)
    (hr : runStages sha d post_json = .ok r) :
    ∃ output fromCache, r = mkResult output fromCache := by
  unfold runStages at hr
  cases hp : parse_post_json post_json with
  | error e =>
    rw [hp] at hr
    simp only [Except.bind] at hr
    exact Except.noConfusion hr
  | ok post =>
    rw [hp] at hr
    simp only [Except.bind] at hr
    unfold stagesAfterParse at hr
    cases hc : cacheLookup sha d post with
    | error e =>
      rw [hc] at hr
      simp only [Except.bind] at hr
      exact Except.noConfusion hr
    | ok cached =>
      rw [hc] at hr
      simp only [Except.bind] at hr
      cases cached with
      | some cachedAnalysis =>
        simp only [Except.ok.injEq] at hr
        exact ⟨cachedAnalysis, true, hr.symm⟩
      | none =>
        simp only [] at hr
        cases hmk : mkPostAnalysisInput post (d.classify post.text) with
        | error e =>
          rw [hmk] at hr
          simp only [Except.bind] at hr
          exact Except.noConfusion hr
        | ok analysis_input =>
          rw [hmk] at hr
          simp only [Except.bind] at hr
          cases hsv : saveStep sha d post (analyze d.agent analysis_input) with
          | error e =>
            rw [hsv] at hr
            simp only [Except.bind] at hr
            exact Except.noConfusion hr
          | ok ignored =>
            rw [hsv] at hr
            simp only [Except.bind, Except.ok.injEq] at hr
            exact ⟨analyze d.agent analysis_input, false, hr.symm⟩

/-- C4: for every input dictionary, if any stage of
`FakeNewsWorkflow.process_post_json` raises, the result is the conservative
default verdict (risk_level MEDIO, risk_score 0.5, confidence 0, error
true, error_message the cause) and carries no `from_cache` key; and every
non-error result carries a boolean `from_cache` flag. -/
theorem C4_workflow_error_contract (sha : String → String) (d : WorkflowDeps)
    (post_json : List (String × JVal)) :
    (∀ e, runStages sha d post_json = .error e →
      process_post_json sha d post_json =
        { error := some true
          error_message := some e.pymsg
          risk_level := "MEDIO"
          risk_score := 0.5
          bert_score := 0.5
          confidence := 0.0
          reasoning := "Erro no processamento: " ++ e.pymsg
          relevant_sources := []
          factors := []
          from_cache := none }) ∧
    (∀ r, runStages sha d post_json = .ok r →
      process_post_json sha d post_json = r ∧ ∃ b, r.from_cache = some b) := by
  constructor
  · intro e he
    unfold process_post_json
    rw [he]
    rfl
  · intro r hr
    refine ⟨by unfold process_post_json; rw [hr], ?_⟩
    obtain ⟨output, fromCache, rfl⟩ := runStages_ok_shape sha d post_json r hr
    exact ⟨fromCache, rfl⟩

/-- C4 witness: the error contract applied to a concrete failing parse (the
error verdict with no `from_cache` key) and to a concrete successful run
(whose result carries `from_cache = false`). -/
theorem C4_witness :
    process_post_json sha0 wfNoCache jsonBadText =
      { error := some true
        error_message := some (PyErr.validationError ("text")).pymsg
        risk_level := "MEDIO"
        risk_score := 0.5
        bert_score := 0.5
        confidence := 0.0
        reasoning := "Erro no processamento: " ++ (PyErr.validationError ("text")).pymsg
        relevant_sources := []
        factors := []
        from_cache := none } ∧
    ∃ b, (process_post_json sha0 wfNoCache jsonGood).from_cache = some b := by
  constructor
  · exact (C4_workflow_error_contract sha0 wfNoCache jsonBadText).1
      (.validationError ("text")) rfl
  · have hparse : parse_post_json jsonGood =
        .ok { text := "Breaking: Cientistas descobrem que vacinas causam autismo!"
              metadata := []
              image_description := none
              social_network := some "Facebook" } := by
      simp [parse_post_json, jsonGood, lookupKey, parseFields, Except.bind]
    have hmk : mkPostAnalysisInput
        { text := "Breaking: Cientistas descobrem que vacinas causam autismo!"
          metadata := []
          image_description := none
          social_network := some "Facebook" } (0.5 : ℚ) =
        .ok { text := "Breaking: Cientistas descobrem que vacinas causam autismo!"
              metadata := []
              image_description := none
              social_network := some "Facebook"
              bert_score := (0.5 : ℚ) } := by
      unfold mkPostAnalysisInput
      rw [if_pos (by norm_num)]
    have hok : runStages sha0 wfNoCache jsonGood = Except.ok wfGoodRun := by
      unfold runStages
      rw [hparse]
      simp only [Except.bind]
      unfold stagesAfterParse cacheLookup saveStep wfNoCache
      simp only [hmk, Except.bind, wfGoodRun]
    have h := (C4_workflow_error_contract sha0 wfNoCache jsonGood).2 wfGoodRun hok
    obtain ⟨b, hb⟩ := h.2
    exact ⟨b, h.1 ▸ hb⟩

theorem lookupKey_cons_ne (k key : String) (v : JVal)
    (j : List (String × JVal)) (h : k ≠ key) :
    lookupKey ((k, v) :: j) key = lookupKey j key := by
  simp [lookupKey, h]

theorem lookupKey_erase_ne (key k' : String) (j : List (String × JVal))
    (h : k' ≠ key) :
    lookupKey (eraseKey key j) k' = lookupKey j k' := by
  induction j with
  | nil => rfl
  | cons p rest ih =>
    obtain ⟨k, v⟩ := p
    by_cases hk : k = key
    · subst hk
      have hne : ¬ k = k' := fun he => h (he ▸ rfl)
      simp [eraseKey, List.filter_cons, lookupKey, hne] at ih ⊢
      exact ih
    · simp [eraseKey, List.filter_cons, hk, lookupKey] at ih ⊢
      by_cases hkk : k = k'
      · simp [hkk]
      · simp [hkk]
        exact ih

theorem parse_insert_trend (j : List (String × JVal)) (v : JVal) :
    parse_post_json ((("trend"), v) :: j) = parse_post_json j := by
  unfold parse_post_json
  rw [lookupKey_cons_ne _ _ _ _ (by decide), lookupKey_cons_ne _ _ _ _ (by decide),
    lookupKey_cons_ne _ _ _ _ (by decide), lookupKey_cons_ne _ _ _ _ (by decide)]

theorem parse_erase_trend (j : List (String × JVal)) :
    parse_post_json (eraseKey ("trend") j) = parse_post_json j := by
  unfold parse_post_json
  rw [lookupKey_erase_ne _ _ _ (by decide), lookupKey_erase_ne _ _ _ (by decide),
    lookupKey_erase_ne _ _ _ (by decide), lookupKey_erase_ne _ _ _ (by decide)]

/-- C10: two-run noninterference of the `trend` field on the workflow path:
`process_post_json` returns the same result whether the `trend` key is
present with any value or absent, because `_parse_post_json` never reads
`trend` and `PostInput` carries no trend field, so `trend` can influence
neither the cache fingerprint nor the verdict computed through the
workflow. -/
theorem C10_trend_noninterference (sha : String → String) (d : WorkflowDeps)
    (j : List (String × JVal)) (v : JVal) :
    process_post_json sha d ((("trend"), v) :: j) = process_post_json sha d j ∧
    process_post_json sha d (eraseKey ("trend") j) = process_post_json sha d j := by
  constructor
  · unfold process_post_json runStages
    rw [parse_insert_trend]
  · unfold process_post_json runStages
    rw [parse_erase_trend]
